import Mathlib

/-!
Shallow embedding of the product-management / payment backend
(`src/index.js`, an Express application over MongoDB and Stripe).

JavaScript values are modelled as follows:
- a string field that may be `undefined` is `Option String` (`none` = undefined);
- a numeric field that may be `NaN` is `Option ℚ` (`none` = NaN; the JS
  arithmetic on such values propagates NaN, and every comparison with NaN
  is false, as encoded in the operations below);
- a MongoDB `ObjectId` is a 24-character hex string; constructing one from
  any other string throws.

The MongoDB collections are association lists from id strings to documents.
The Stripe gateway is injected as a function parameter; the purchase handler
records the calls it makes to it, and the confirm handler records how many
`updateOne` operations it performs, so that "never calls the gateway" and
"single update / no mutation" become provable statements.
-/

/-- JavaScript string-or-undefined values: `none` stands for `undefined`. -/
abbrev JsStr := Option String

/-- JavaScript numbers that may be `NaN`: `none` stands for `NaN`. -/
abbrev JsNum := Option ℚ

/-- JS subtraction: `NaN` propagates. -/
def jsSub : JsNum → JsNum → JsNum
  | some a, some b => some (a - b)
  | _, _ => none

/-- JS multiplication: `NaN` propagates. -/
def jsMul : JsNum → JsNum → JsNum
  | some a, some b => some (a * b)
  | _, _ => none

/-- JS comparison `a < b`: any comparison involving `NaN` is false. -/
def jsLt : JsNum → JsNum → Bool
  | some a, some b => decide (a < b)
  | _, _ => false

/-- JS strict equality test `x === 0`: `NaN === 0` is false. -/
def jsEqZero : JsNum → Bool
  | some a => decide (a = 0)
  | none => false

/-- JS `parseFloat` applied to a body value that is either a number or
absent: `parseFloat(undefined)` is `NaN`, a number parses to itself. -/
def jsParseFloat : Option ℚ → JsNum := fun x => x

/-- Truncation toward zero, as `parseInt` performs on a decimal numeral. -/
def jsTruncTowardZero (q : ℚ) : ℤ := if 0 ≤ q then ⌊q⌋ else ⌈q⌉

/-- JS `parseInt` applied to a body value that is either a number or absent:
`parseInt(undefined)` is `NaN`, a number is truncated toward zero. -/
def jsParseInt : Option ℚ → JsNum := fun x => x.map (fun q => (jsTruncTowardZero q : ℚ))

/-- Validity of a MongoDB ObjectId hex character. -/
def isHexChar (c : Char) : Bool :=
  c.isDigit || (decide ('a' ≤ c) && decide (c ≤ 'f')) || (decide ('A' ≤ c) && decide (c ≤ 'F'))

/-- Whether `new ObjectId(s)` succeeds: `s` must be a 24-character hex
string; otherwise the constructor throws a `BSONError`. -/
def validObjectId (s : String) : Bool :=
  s.length == 24 && s.toList.all isHexChar

/-- A product document as stored in `productCollection`.  The five fields
written by `POST /products` and `PATCH /products/:id`, plus the `status`
field written by the confirm-payment handler (absent until then). -/
structure Product where
  name : JsStr
  description : JsStr
  price : JsNum
  imageURL : JsStr
  stock : JsNum
  status : JsStr
deriving DecidableEq, Repr

/-- The `products` collection: association list from ObjectId strings to
documents (first binding for a key wins, as ids are unique). -/
abbrev ProductStore := List (String × Product)

/-- The value part of `updatedProduct` built by the PATCH handler: the five
request-derived fields (no `_id`, no `status`). -/
structure PatchDoc where
  name : JsStr
  description : JsStr
  price : JsNum
  imageURL : JsStr
  stock : JsNum
deriving DecidableEq, Repr

/-- A Stripe payment intent as seen by the handlers. -/
structure PaymentIntent where
  id : String
  status : String
  client_secret : String
deriving DecidableEq, Repr

/-- A user document in `userCollection`: the identity email plus the other
profile fields, kept opaque. -/
structure User where
  email : JsStr
  profile : String
deriving DecidableEq, Repr

/-- The `userCollection`: association list from generated ids to users. -/
abbrev UserStore := List (String × User)

/-- A signed JWT as issued by `createToken`: its payload embeds the email. -/
structure Token where
  email : JsStr
deriving DecidableEq, Repr

/-- JSON response bodies produced by the handlers. -/
inductive Body where
  /-- a `message` object, e.g. a 404 or 400 body -/
  | msg (m : String)
  /-- an `error` object (the confirm-payment catch block) -/
  | err (e : String)
  /-- the `POST /user` body: status, message and token -/
  | auth (status message : String) (token : Token)
  /-- a stored product document (with its id), as `GET /products/:id` sends -/
  | productDoc (id : String) (p : Product)
  /-- the request-derived object the PATCH handler sends back -/
  | patchObj (u : PatchDoc)
  /-- the purchase body carrying the client secret -/
  | clientSecret (s : String)
  /-- the confirm-payment success body: message and refreshed product -/
  | confirmOk (message : String) (product : Option Product)
  /-- a user document or `null`, as the user lookups send -/
  | userDoc (u : Option User)
deriving DecidableEq, Repr

/-- An HTTP response: status code and JSON body. -/
structure HttpResponse where
  status : Nat
  body : Body
deriving DecidableEq, Repr

/-- MongoDB `findOne` on the products collection by `_id`. -/
def findProduct (id : String) (s : ProductStore) : Option Product :=
  (s.find? (fun kv => kv.1 == id)).map (fun kv => kv.2)

/-- MongoDB `updateOne` with a `$set`: if a document with the id exists its
fields are rewritten by `f`; `modifiedCount` is 1 exactly when the document
actually changed (a `$set` to the already-stored values modifies nothing). -/
def updateOne (s : ProductStore) (id : String) (f : Product → Product) :
    ProductStore × Nat :=
  match s.find? (fun kv => kv.1 == id) with
  | none => (s, 0)
  | some kv =>
      let p := kv.2
      if f p = p then (s, 0)
      else (s.map (fun kv2 => if kv2.1 == id then (kv2.1, f p) else kv2), 1)

/-- MongoDB `findOne` on the user collection by email. -/
def findUserByEmail (e : JsStr) (s : UserStore) : Option User :=
  (s.find? (fun kv => kv.2.email == e)).map (fun kv => kv.2)

/-- MongoDB `findOne` on the user collection by `_id`. -/
def findUserById (id : String) (s : UserStore) : Option User :=
  (s.find? (fun kv => kv.1 == id)).map (fun kv => kv.2)

/-- The `createToken` function: signs a payload embedding the email. -/
def createToken (u : User) : Token := ⟨u.email⟩

/-- The `POST /user` handler.  It issues a token, looks the email up, and
either returns a login response without touching the store or inserts the
body document (under a store-generated id `newId`). -/
def postUser (newId : String) (u : User) (s : UserStore) :
    HttpResponse × UserStore :=
  let token := createToken u
  match findUserByEmail u.email s with
  | some _ => (⟨200, .auth "success" "Login success" token⟩, s)
  | none => (⟨200, .auth "success" "Registration successful" token⟩, s ++ [(newId, u)])

/-- The `GET /user/get/:id` handler.  It has no try/catch: a malformed id
makes `new ObjectId(id)` throw and the exception leaves the handler
uncaught, which is the `.error` case. -/
def getUserById (id : String) (s : UserStore) : Except String HttpResponse :=
  if validObjectId id then .ok ⟨200, .userDoc (findUserById id s)⟩
  else .error "BSONError: invalid ObjectId"

/-- The `GET /products/:id` handler: 404 when absent, the document when
found; a malformed id throws inside the try and the catch answers 500. -/
def getProduct (id : String) (s : ProductStore) : HttpResponse :=
  if validObjectId id then
    match findProduct id s with
    | none => ⟨404, .msg "Product not found"⟩
    | some p => ⟨200, .productDoc id p⟩
  else ⟨500, .msg "Failed to fetch product"⟩

/-- The raw `PATCH /products/:id` body: each of the five fields is either a
number/string or absent (`undefined`). -/
structure PatchBody where
  name : JsStr
  description : JsStr
  price : Option ℚ
  imageURL : JsStr
  stock : Option ℚ
deriving DecidableEq, Repr

/-- The object the PATCH handler builds from the request body. -/
def buildPatchDoc (b : PatchBody) : PatchDoc :=
  { name := b.name
    description := b.description
    price := jsParseFloat b.price
    imageURL := b.imageURL
    stock := jsParseInt b.stock }

/-- The field rewrite performed by the PATCH handler's `$set`: the five
request-derived fields are written, every other field is untouched. -/
def patchSet (up : PatchDoc) (p : Product) : Product :=
  { p with name := up.name, description := up.description,
           price := up.price, imageURL := up.imageURL, stock := up.stock }

/-- The `PATCH /products/:id` handler body (after the token check): builds
`updatedProduct` from the request, `$set`s its five fields, answers 404 on
`modifiedCount === 0` and otherwise sends back the built object.  A
malformed id throws inside the try and the catch answers 400. -/
def patchProduct (id : String) (b : PatchBody) (s : ProductStore) :
    HttpResponse × ProductStore :=
  let up := buildPatchDoc b
  if validObjectId id then
    let r := updateOne s id (patchSet up)
    if r.2 == 0 then (⟨404, .msg "Product not found"⟩, r.1)
    else (⟨200, .patchObj up⟩, r.1)
  else (⟨400, .msg "Failed to update product"⟩, s)

/-- The result of the purchase handler: the response, the (unchanged)
store, and the list of `stripe.paymentIntents.create` calls made, each
recorded as (amount, currency). -/
structure PurchaseResult where
  resp : HttpResponse
  store : ProductStore
  gatewayCalls : List (JsNum × String)
deriving DecidableEq, Repr

/-- The `POST /products/:id/purchase` handler.  `create` is the Stripe
adapter (`none` = the provider call failed and threw).  The handler loads
the product (404 if absent), rejects `product.stock < quantity` with 400,
computes `amount = product.price * quantity * 100` and asks the gateway for
an intent in usd; any throw (malformed id, gateway failure) is caught and
answered with 500. -/
def purchase (create : JsNum → String → Option PaymentIntent)
    (id : String) (quantity : JsNum) (s : ProductStore) : PurchaseResult :=
  if validObjectId id then
    match findProduct id s with
    | none => ⟨⟨404, .msg "Product not found"⟩, s, []⟩
    | some product =>
      if jsLt product.stock quantity then
        ⟨⟨400, .msg "Not enough stock available"⟩, s, []⟩
      else
        let amount := jsMul (jsMul product.price quantity) (some 100)
        match create amount "usd" with
        | none => ⟨⟨500, .msg "Failed to create payment intent"⟩, s, [(amount, "usd")]⟩
        | some pi => ⟨⟨200, .clientSecret pi.client_secret⟩, s, [(amount, "usd")]⟩
  else ⟨⟨500, .msg "Failed to create payment intent"⟩, s, []⟩

/-- The field rewrite performed by the confirm-payment handler's `$set`:
the precomputed stock and status label are written, every other field is
untouched. -/
def confirmSet (updatedStock : JsNum) (status : String) (p : Product) : Product :=
  { p with stock := updatedStock, status := some status }

/-- The result of the confirm-payment handler: the response, the resulting
store, and the number of `updateOne` operations performed. -/
structure ConfirmResult where
  resp : HttpResponse
  store : ProductStore
  writes : Nat
deriving DecidableEq, Repr

/-- The `POST /products/:id/confirm-payment` handler.  `retrieve` is the
Stripe adapter fetching an intent by id (`none` = the provider call threw).
On a succeeded intent it computes `updatedStock = product.stock - quantity`,
derives the status label by `updatedStock === 0`, persists both fields in
one `updateOne`, answers 400 on `modifiedCount === 0` and otherwise sends
the re-fetched product; a non-succeeded intent answers 400 with no update;
any throw is caught and answered with a 500 `error` body. -/
def confirmPayment (retrieve : String → Option PaymentIntent)
    (id : String) (paymentIntentId : String) (quantity : JsNum)
    (s : ProductStore) : ConfirmResult :=
  if validObjectId id then
    match findProduct id s with
    | none => ⟨⟨404, .msg "Product not found"⟩, s, 0⟩
    | some product =>
      match retrieve paymentIntentId with
      | none => ⟨⟨500, .err "Failed to confirm payment"⟩, s, 0⟩
      | some pi =>
        if pi.status == "succeeded" then
          let updatedStock := jsSub product.stock quantity
          let status := if jsEqZero updatedStock then "Out of Stock" else "In Stock"
          let r := updateOne s id (confirmSet updatedStock status)
          if r.2 == 0 then ⟨⟨400, .msg "Failed to update product stock"⟩, r.1, 1⟩
          else ⟨⟨200, .confirmOk "Payment succeeded" (findProduct id r.1)⟩, r.1, 1⟩
        else ⟨⟨400, .msg "Payment not successful"⟩, s, 0⟩
  else ⟨⟨500, .err "Failed to confirm payment"⟩, s, 0⟩

/-! Helper lemmas about the store operations. -/

/-- Rewriting the matching binding is visible through `findProduct`. -/
lemma findProduct_map_set (id : String) (q : Product) (s : ProductStore) (p : Product)
    (h : findProduct id s = some p) :
    findProduct id (s.map (fun kv => if kv.1 == id then (kv.1, q) else kv)) = some q := by
  induction s with
  | nil => simp [findProduct] at h
  | cons kv t ih =>
    unfold findProduct at h ⊢
    cases hk : (kv.1 == id) with
    | true =>
      simp only [List.map_cons, hk, if_true]
      rw [List.find?_cons_of_pos _ (by simpa using hk)]
      simp
    | false =>
      rw [List.find?_cons_of_neg _ (by simp [hk])] at h
      simp only [List.map_cons, hk, if_false]
      rw [List.find?_cons_of_neg _ (by simp [hk])]
      exact ih h

/-- Characterisation of `updateOne` on a store that contains the document:
either the `$set` leaves the document as it is and nothing is modified, or
`modifiedCount` is 1 and the rewritten document is what is found after. -/
lemma updateOne_of_found {id : String} {s : ProductStore} {p : Product}
    (f : Product → Product) (hp : findProduct id s = some p) :
    (f p = p ∧ updateOne s id f = (s, 0)) ∨
    (f p ≠ p ∧ (updateOne s id f).2 = 1 ∧
      findProduct id (updateOne s id f).1 = some (f p)) := by
  have hp0 := hp
  unfold findProduct at hp0
  cases hfind : s.find? (fun kv => kv.1 == id) with
  | none => rw [hfind] at hp0; simp at hp0
  | some kv =>
    rw [hfind] at hp0
    simp only [Option.map_some', Option.some.injEq] at hp0
    have hupd : updateOne s id f =
        if f kv.2 = kv.2 then (s, 0)
        else (s.map (fun kv2 => if kv2.1 == id then (kv2.1, f kv.2) else kv2), 1) := by
      unfold updateOne
      rw [hfind]
    by_cases hfp : f kv.2 = kv.2
    · left
      rw [hfp, if_pos rfl] at hupd
      rw [hp0] at hfp
      exact ⟨hfp, hupd⟩
    · right
      rw [if_neg hfp] at hupd
      refine ⟨by rw [hp0] at hfp; exact hfp, by rw [hupd], ?_⟩
      rw [hupd, hp0]
      exact findProduct_map_set id (f p) s p hp

/-- "In Stock" and "Out of Stock" differ. -/
lemma inStock_ne_outOfStock : ("In Stock" : String) ≠ "Out of Stock" := by decide

/-- Reduction of the confirm-payment handler on the succeeded path: with a
valid id, a present product and a succeeded intent, the handler is the
result of the single `updateOne` with the precomputed stock and label. -/
lemma confirmPayment_succeeded_reduce
    (retrieve : String → Option PaymentIntent) (id paymentIntentId : String)
    (quantity : JsNum) (s : ProductStore) (p : Product) (pi : PaymentIntent)
    (hid : validObjectId id = true)
    (hp : findProduct id s = some p)
    (hpi : retrieve paymentIntentId = some pi)
    (hsucc : pi.status = "succeeded") :
    confirmPayment retrieve id paymentIntentId quantity s =
      (if (updateOne s id (confirmSet (jsSub p.stock quantity)
            (if jsEqZero (jsSub p.stock quantity) then "Out of Stock" else "In Stock"))).2 == 0 then
        (⟨⟨400, .msg "Failed to update product stock"⟩,
          (updateOne s id (confirmSet (jsSub p.stock quantity)
            (if jsEqZero (jsSub p.stock quantity) then "Out of Stock" else "In Stock"))).1, 1⟩ : ConfirmResult)
      else
        ⟨⟨200, .confirmOk "Payment succeeded"
            (findProduct id (updateOne s id (confirmSet (jsSub p.stock quantity)
              (if jsEqZero (jsSub p.stock quantity) then "Out of Stock" else "In Stock"))).1)⟩,
          (updateOne s id (confirmSet (jsSub p.stock quantity)
            (if jsEqZero (jsSub p.stock quantity) then "Out of Stock" else "In Stock"))).1, 1⟩) := by
  simp only [confirmPayment, hid, hp, hpi, hsucc, beq_self_eq_true, if_true]

/-- Core behaviour of the succeeded confirm-payment path: one update is
performed, the stored stock becomes `stock - quantity`, the stored status
label is derived from the resulting stock, and a 200 response carries the
refreshed document. -/
lemma confirm_succeeded_core
    (retrieve : String → Option PaymentIntent) (id paymentIntentId : String)
    (q : ℚ) (s : ProductStore) (p : Product) (st : ℚ) (pi : PaymentIntent)
    (hid : validObjectId id = true)
    (hp : findProduct id s = some p)
    (hst : p.stock = some st)
    (hpi : retrieve paymentIntentId = some pi)
    (hsucc : pi.status = "succeeded") :
    (confirmPayment retrieve id paymentIntentId (some q) s).writes = 1 ∧
    ∃ p1, findProduct id (confirmPayment retrieve id paymentIntentId (some q) s).store = some p1 ∧
      p1.stock = some (st - q) ∧
      p1.status = some (if st - q = 0 then "Out of Stock" else "In Stock") ∧
      (p1.status = some "Out of Stock" ↔ st - q = 0) ∧
      ((confirmPayment retrieve id paymentIntentId (some q) s).resp.status = 200 →
        (confirmPayment retrieve id paymentIntentId (some q) s).resp =
          ⟨200, .confirmOk "Payment succeeded" (some p1)⟩) := by
  have hu : jsSub p.stock (some q) = some (st - q) := by rw [hst]; rfl
  have hlab : (if jsEqZero (jsSub p.stock (some q)) then "Out of Stock" else "In Stock")
      = (if st - q = 0 then "Out of Stock" else "In Stock") := by
    rw [hu]; simp [jsEqZero]
  have hiff : ∀ lbl : String,
      lbl = (if st - q = 0 then "Out of Stock" else "In Stock") →
      (some lbl = (some "Out of Stock" : JsStr) ↔ st - q = 0) := by
    intro lbl hl
    by_cases hz : st - q = 0
    · rw [hl, if_pos hz]; simp [hz]
    · rw [hl, if_neg hz]
      simp only [Option.some.injEq]
      exact iff_of_false inStock_ne_outOfStock hz
  have hred := confirmPayment_succeeded_reduce retrieve id paymentIntentId
    (some q) s p pi hid hp hpi hsucc
  rcases updateOne_of_found (confirmSet (jsSub p.stock (some q))
      (if jsEqZero (jsSub p.stock (some q)) then "Out of Stock" else "In Stock")) hp with
    ⟨hfix, hupd⟩ | ⟨hne, h2, h1⟩
  · rw [hupd] at hred
    simp only [if_pos rfl] at hred
    rw [hred]
    refine ⟨rfl, p, hp, ?_, ?_, ?_, ?_⟩
    · have := congrArg Product.stock hfix
      simp only [confirmSet] at this
      rw [← this, hu]
    · have := congrArg Product.status hfix
      simp only [confirmSet] at this
      rw [← this, hlab]
    · have := congrArg Product.status hfix
      simp only [confirmSet] at this
      rw [← this, hlab]
      exact hiff _ rfl
    · intro h200
      simp at h200
  · rw [h2] at hred
    rw [if_neg (by simp)] at hred
    rw [hred]
    refine ⟨rfl, confirmSet (jsSub p.stock (some q))
      (if jsEqZero (jsSub p.stock (some q)) then "Out of Stock" else "In Stock") p,
      h1, ?_, ?_, ?_, ?_⟩
    · simp only [confirmSet]
      exact hu
    · simp only [confirmSet, Option.some.injEq]
      rw [hlab]
    · simp only [confirmSet]
      rw [hlab]
      exact hiff _ rfl
    · intro _
      simp only [HttpResponse.mk.injEq, Body.confirmOk.injEq, true_and]
      rw [h1]

/-- C1: for every existing product and every quantity, ConfirmPurchase with
a payment intent whose status is "succeeded" persists
`stock = stock - quantity` in a single update, the persisted status field
equals "Out of Stock" exactly when the resulting stock is 0 (otherwise
"In Stock"), and on success the refreshed product document is returned. -/
theorem confirm_succeeded_persists
    (retrieve : String → Option PaymentIntent) (id paymentIntentId : String)
    (q : ℚ) (s : ProductStore) (p : Product) (st : ℚ) (pi : PaymentIntent)
    (hid : validObjectId id = true)
    (hp : findProduct id s = some p)
    (hst : p.stock = some st)
    (hpi : retrieve paymentIntentId = some pi)
    (hsucc : pi.status = "succeeded") :
    (confirmPayment retrieve id paymentIntentId (some q) s).writes = 1 ∧
    ∃ p1, findProduct id (confirmPayment retrieve id paymentIntentId (some q) s).store = some p1 ∧
      p1.stock = some (st - q) ∧
      p1.status = some (if st - q = 0 then "Out of Stock" else "In Stock") ∧
      (p1.status = some "Out of Stock" ↔ st - q = 0) ∧
      ((confirmPayment retrieve id paymentIntentId (some q) s).resp.status = 200 →
        (confirmPayment retrieve id paymentIntentId (some q) s).resp =
          ⟨200, .confirmOk "Payment succeeded" (some p1)⟩) :=
  confirm_succeeded_core retrieve id paymentIntentId q s p st pi hid hp hst hpi hsucc

/-- Fixture: a syntactically valid ObjectId. -/
def wPid : String := "0123456789abcdef01234567"

/-- Fixture: a product with one unit in stock. -/
def wProduct : Product := ⟨some "Widget", some "desc", some 10, some "url", some 1, none⟩

/-- Fixture: a store holding the one product. -/
def wStore : ProductStore := [(wPid, wProduct)]

/-- Fixture: a succeeded payment intent. -/
def wIntent : PaymentIntent := ⟨"pi_1", "succeeded", "cs_1"⟩

/-- Fixture: a Stripe retrieve adapter knowing only the intent above. -/
def wRetrieve : String → Option PaymentIntent :=
  fun i => if i == "pi_1" then some wIntent else none

/-- Witness for C1 at the spec scenario: one unit in stock, quantity one. -/
theorem confirm_succeeded_persists_witness :
    (confirmPayment wRetrieve wPid "pi_1" (some 1) wStore).writes = 1 ∧
    ∃ p1, findProduct wPid (confirmPayment wRetrieve wPid "pi_1" (some 1) wStore).store = some p1 ∧
      p1.stock = some (1 - 1) ∧
      p1.status = some (if (1 : ℚ) - 1 = 0 then "Out of Stock" else "In Stock") ∧
      (p1.status = some "Out of Stock" ↔ (1 : ℚ) - 1 = 0) ∧
      ((confirmPayment wRetrieve wPid "pi_1" (some 1) wStore).resp.status = 200 →
        (confirmPayment wRetrieve wPid "pi_1" (some 1) wStore).resp =
          ⟨200, .confirmOk "Payment succeeded" (some p1)⟩) :=
  confirm_succeeded_persists wRetrieve wPid "pi_1" 1 wStore wProduct 1 wIntent
    (by decide) rfl rfl rfl rfl

/-- C2: ConfirmPurchase does not re-validate stock sufficiency: with a
succeeded intent and `quantity > stock`, the update is still applied and
the persisted stock becomes the negative `stock - quantity`. -/
theorem confirm_overdraw_goes_negative
    (retrieve : String → Option PaymentIntent) (id paymentIntentId : String)
    (q : ℚ) (s : ProductStore) (p : Product) (st : ℚ) (pi : PaymentIntent)
    (hid : validObjectId id = true)
    (hp : findProduct id s = some p)
    (hst : p.stock = some st)
    (hpi : retrieve paymentIntentId = some pi)
    (hsucc : pi.status = "succeeded")
    (hlt : st < q) :
    (confirmPayment retrieve id paymentIntentId (some q) s).writes = 1 ∧
    ∃ p1, findProduct id (confirmPayment retrieve id paymentIntentId (some q) s).store = some p1 ∧
      p1.stock = some (st - q) ∧ st - q < 0 := by
  obtain ⟨hw, p1, hfind, hstock, -⟩ :=
    confirm_succeeded_core retrieve id paymentIntentId q s p st pi hid hp hst hpi hsucc
  exact ⟨hw, p1, hfind, hstock, sub_neg.mpr hlt⟩

/-- Witness for C2: quantity 5 against a stock of 1 persists stock -4. -/
theorem confirm_overdraw_goes_negative_witness :
    (confirmPayment wRetrieve wPid "pi_1" (some 5) wStore).writes = 1 ∧
    ∃ p1, findProduct wPid (confirmPayment wRetrieve wPid "pi_1" (some 5) wStore).store = some p1 ∧
      p1.stock = some (1 - 5) ∧ (1 : ℚ) - 5 < 0 :=
  confirm_overdraw_goes_negative wRetrieve wPid "pi_1" 5 wStore wProduct 1 wIntent
    (by decide) rfl rfl rfl rfl (by norm_num)

/-- C5: ConfirmPurchase with an intent whose status is not "succeeded"
answers 400 "Payment not successful", leaves the store exactly as it was,
and performs no update operation. -/
theorem confirm_not_succeeded_no_mutation
    (retrieve : String → Option PaymentIntent) (id paymentIntentId : String)
    (quantity : JsNum) (s : ProductStore) (p : Product) (pi : PaymentIntent)
    (hid : validObjectId id = true)
    (hp : findProduct id s = some p)
    (hpi : retrieve paymentIntentId = some pi)
    (hns : pi.status ≠ "succeeded") :
    confirmPayment retrieve id paymentIntentId quantity s =
      ⟨⟨400, .msg "Payment not successful"⟩, s, 0⟩ := by
  have hb : (pi.status == "succeeded") = false := beq_eq_false_iff_ne.mpr hns
  simp only [confirmPayment, hid, hp, hpi, hb, if_true, Bool.false_eq_true, if_false]

/-- Fixture: a payment intent that has not succeeded. -/
def wIntentFailed : PaymentIntent := ⟨"pi_2", "requires_payment_method", "cs_2"⟩

/-- Fixture: a Stripe retrieve adapter knowing only the failed intent. -/
def wRetrieveFailed : String → Option PaymentIntent :=
  fun i => if i == "pi_2" then some wIntentFailed else none

/-- Witness for C5: a requires_payment_method intent mutates nothing. -/
theorem confirm_not_succeeded_no_mutation_witness :
    confirmPayment wRetrieveFailed wPid "pi_2" (some 1) wStore =
      ⟨⟨400, .msg "Payment not successful"⟩, wStore, 0⟩ :=
  confirm_not_succeeded_no_mutation wRetrieveFailed wPid "pi_2" (some 1) wStore
    wProduct wIntentFailed (by decide) rfl rfl (by decide)

/-- C6: in ConfirmPurchase with a succeeded intent, if the persisted
stock/status update reports zero documents modified, the handler answers
HTTP 400 with the update-conflict message. -/
theorem confirm_update_conflict
    (retrieve : String → Option PaymentIntent) (id paymentIntentId : String)
    (quantity : JsNum) (s : ProductStore) (p : Product) (pi : PaymentIntent)
    (hid : validObjectId id = true)
    (hp : findProduct id s = some p)
    (hpi : retrieve paymentIntentId = some pi)
    (hsucc : pi.status = "succeeded")
    (hzero : (updateOne s id (confirmSet (jsSub p.stock quantity)
        (if jsEqZero (jsSub p.stock quantity) then "Out of Stock" else "In Stock"))).2 = 0) :
    (confirmPayment retrieve id paymentIntentId quantity s).resp =
      ⟨400, .msg "Failed to update product stock"⟩ := by
  rw [confirmPayment_succeeded_reduce retrieve id paymentIntentId quantity s p pi
    hid hp hpi hsucc, hzero]
  rfl

/-- Fixture: a product whose stored stock and status are exactly what a
quantity-zero confirmation would write, so the `$set` modifies nothing. -/
def wProductFixed : Product := ⟨some "Widget", some "desc", some 10, some "url", some 5, some "In Stock"⟩

/-- Fixture: a store holding the fixed-point product. -/
def wStoreFixed : ProductStore := [(wPid, wProductFixed)]

/-- Witness for C6: quantity 0 against matching stored fields reports zero
modified documents and the handler answers the 400 conflict body. -/
theorem confirm_update_conflict_witness :
    (confirmPayment wRetrieve wPid "pi_1" (some 0) wStoreFixed).resp =
      ⟨400, .msg "Failed to update product stock"⟩ :=
  confirm_update_conflict wRetrieve wPid "pi_1" (some 0) wStoreFixed wProductFixed
    wIntent (by decide) rfl rfl rfl
    (by simp [updateOne, wStoreFixed, wPid, wProductFixed, confirmSet, jsSub, jsEqZero])

/-- C3: InitiatePurchase on an existing product with sufficient stock asks
the gateway for exactly one intent of amount `price * quantity * 100` in
usd, answers 200 with the gateway client secret, and leaves the store
(in particular the stock) unchanged. -/
theorem purchase_in_stock
    (create : JsNum → String → Option PaymentIntent) (id : String)
    (q st pr : ℚ) (s : ProductStore) (p : Product) (pi : PaymentIntent)
    (hid : validObjectId id = true)
    (hp : findProduct id s = some p)
    (hst : p.stock = some st)
    (hpr : p.price = some pr)
    (hq : q ≤ st)
    (hcreate : create (some (pr * q * 100)) "usd" = some pi) :
    purchase create id (some q) s =
      ⟨⟨200, .clientSecret pi.client_secret⟩, s, [(some (pr * q * 100), "usd")]⟩ := by
  have hamount : jsMul (jsMul p.price (some q)) (some 100) = some (pr * q * 100) := by
    rw [hpr]; rfl
  have hlt : jsLt p.stock (some q) = false := by
    rw [hst]
    simp only [jsLt, decide_eq_false_iff_not]
    exact not_lt.mpr hq
  simp only [purchase, hid, hp, hlt, if_true, Bool.false_eq_true, if_false, hamount, hcreate]

/-- Fixture: a Stripe create adapter answering every request with a fixed
intent. -/
def wCreate : JsNum → String → Option PaymentIntent :=
  fun _ _ => some wIntent

/-- Witness for C3: quantity 1 against a stock of 1 returns the secret and
leaves the store as it was. -/
theorem purchase_in_stock_witness :
    purchase wCreate wPid (some 1) wStore =
      ⟨⟨200, .clientSecret wIntent.client_secret⟩, wStore, [(some (10 * 1 * 100), "usd")]⟩ :=
  purchase_in_stock wCreate wPid 1 1 10 wStore wProduct wIntent
    (by decide) rfl rfl rfl (by norm_num) rfl

/-- C4: InitiatePurchase with `quantity > stock` answers 400 "Not enough
stock available", leaves the store unchanged, and makes no gateway call. -/
theorem purchase_insufficient_stock
    (create : JsNum → String → Option PaymentIntent) (id : String)
    (q st : ℚ) (s : ProductStore) (p : Product)
    (hid : validObjectId id = true)
    (hp : findProduct id s = some p)
    (hst : p.stock = some st)
    (hlt : st < q) :
    purchase create id (some q) s =
      ⟨⟨400, .msg "Not enough stock available"⟩, s, []⟩ := by
  have hb : jsLt p.stock (some q) = true := by
    rw [hst]
    simpa only [jsLt, decide_eq_true_eq] using hlt
  simp only [purchase, hid, hp, hb, if_true]

/-- Witness for C4: quantity 2 against a stock of 1 is rejected with no
gateway call. -/
theorem purchase_insufficient_stock_witness :
    purchase wCreate wPid (some 2) wStore =
      ⟨⟨400, .msg "Not enough stock available"⟩, wStore, []⟩ :=
  purchase_insufficient_stock wCreate wPid 2 1 wStore wProduct
    (by decide) rfl rfl (by norm_num)

/-- C7: with a well-formed id that references no product, GET
/products/:id, InitiatePurchase and ConfirmPurchase all answer 404 with
the "Product not found" body and touch nothing; when the product exists
each of them proceeds past the lookup (GET returns the document, the other
two never produce that 404 response). -/
theorem product_lookup_not_found
    (create : JsNum → String → Option PaymentIntent)
    (retrieve : String → Option PaymentIntent)
    (id paymentIntentId : String) (q : JsNum) (s : ProductStore)
    (hid : validObjectId id = true) :
    (findProduct id s = none →
       getProduct id s = ⟨404, .msg "Product not found"⟩ ∧
       purchase create id q s = ⟨⟨404, .msg "Product not found"⟩, s, []⟩ ∧
       confirmPayment retrieve id paymentIntentId q s =
         ⟨⟨404, .msg "Product not found"⟩, s, 0⟩) ∧
    (∀ p, findProduct id s = some p →
       getProduct id s = ⟨200, .productDoc id p⟩ ∧
       (purchase create id q s).resp ≠ ⟨404, .msg "Product not found"⟩ ∧
       (confirmPayment retrieve id paymentIntentId q s).resp ≠
         ⟨404, .msg "Product not found"⟩) := by
  constructor
  · intro hnone
    refine ⟨?_, ?_, ?_⟩ <;>
      simp only [getProduct, purchase, confirmPayment, hid, hnone, if_true]
  · intro p hp
    refine ⟨by simp only [getProduct, hid, hp, if_true], ?_, ?_⟩
    · simp only [purchase, hid, hp, if_true]
      cases hlt : jsLt p.stock q with
      | true => simp
      | false =>
        simp only [Bool.false_eq_true, if_false]
        cases hc : create (jsMul (jsMul p.price q) (some 100)) "usd" with
        | none => simp
        | some pi => simp
    · simp only [confirmPayment, hid, hp, if_true]
      cases hr : retrieve paymentIntentId with
      | none => simp
      | some pi =>
        simp only []
        cases hsucc : (pi.status == "succeeded") with
        | false => simp
        | true =>
          simp only [if_true]
          cases hz : ((updateOne s id (confirmSet (jsSub p.stock q)
              (if jsEqZero (jsSub p.stock q) then "Out of Stock" else "In Stock"))).2 == 0) with
          | true => simp [hz]
          | false => simp [hz]

/-- Witness for C7: the valid fixture id against the empty store. -/
theorem product_lookup_not_found_witness :
    (findProduct wPid ([] : ProductStore) = none →
       getProduct wPid [] = ⟨404, .msg "Product not found"⟩ ∧
       purchase wCreate wPid (some 1) [] = ⟨⟨404, .msg "Product not found"⟩, [], []⟩ ∧
       confirmPayment wRetrieve wPid "pi_1" (some 1) [] =
         ⟨⟨404, .msg "Product not found"⟩, [], 0⟩) ∧
    (∀ p, findProduct wPid ([] : ProductStore) = some p →
       getProduct wPid [] = ⟨200, .productDoc wPid p⟩ ∧
       (purchase wCreate wPid (some 1) []).resp ≠ ⟨404, .msg "Product not found"⟩ ∧
       (confirmPayment wRetrieve wPid "pi_1" (some 1) []).resp ≠
         ⟨404, .msg "Product not found"⟩) :=
  product_lookup_not_found wCreate wRetrieve wPid "pi_1" (some 1) [] (by decide)

/-- Searching an appended store when the first part misses searches the
second part. -/
lemma findUserByEmail_append {e : JsStr} {s : UserStore} (s2 : UserStore)
    (h : findUserByEmail e s = none) :
    findUserByEmail e (s ++ s2) = findUserByEmail e s2 := by
  unfold findUserByEmail at *
  rw [List.find?_append]
  cases hf : s.find? (fun kv => kv.2.email == e) with
  | none => rfl
  | some kv => rw [hf] at h; simp at h

/-- C8: registering an email, then registering it again with an arbitrary
second body carrying the same email (its profile fields may differ), keeps
the store of the first registration exactly — the stored record unchanged,
no second insert, no profile-field update from the second body — and each
of the two calls carries a token issued from the submitted identity. -/
theorem register_twice_returns_existing
    (newId newId2 : String) (u u2 : User) (s : UserStore)
    (hnew : findUserByEmail u.email s = none)
    (hemail : u2.email = u.email) :
    postUser newId u s =
      (⟨200, .auth "success" "Registration successful" (createToken u)⟩, s ++ [(newId, u)]) ∧
    postUser newId2 u2 (s ++ [(newId, u)]) =
      (⟨200, .auth "success" "Login success" (createToken u2)⟩, s ++ [(newId, u)]) := by
  have hfound : findUserByEmail u2.email (s ++ [(newId, u)]) = some u := by
    rw [hemail, findUserByEmail_append _ hnew]
    simp [findUserByEmail]
  constructor
  · simp only [postUser, hnew]
  · simp only [postUser, hfound]

/-- Fixture: a user record. -/
def wUser : User := ⟨some "a@example.com", "profile-blob"⟩

/-- Fixture: a second request body with the same email but a different
profile. -/
def wUserOther : User := ⟨some "a@example.com", "changed-profile-blob"⟩

/-- Witness for C8: registering the fixture email, then re-registering it
with a different profile, on the empty store: the stored record stays the
first one. -/
theorem register_twice_returns_existing_witness :
    postUser "u1" wUser [] =
      (⟨200, .auth "success" "Registration successful" (createToken wUser)⟩,
        [] ++ [("u1", wUser)]) ∧
    postUser "u2" wUserOther ([] ++ [("u1", wUser)]) =
      (⟨200, .auth "success" "Login success" (createToken wUserOther)⟩,
        [] ++ [("u1", wUser)]) :=
  register_twice_returns_existing "u1" "u2" wUser wUserOther [] rfl rfl

/-- C9 (amended): every product-route handler catches a handler-level
failure (here a malformed document id, which makes the ObjectId
constructor throw) and maps it to a JSON message response — an `error`
body in the confirm-payment path — while the user lookup by id has no
handler-level catch, so the same malformed id escapes it as an uncaught
exception instead of an HTTP response. -/
theorem malformed_id_containment
    (create : JsNum → String → Option PaymentIntent)
    (retrieve : String → Option PaymentIntent)
    (id paymentIntentId : String) (q : JsNum) (b : PatchBody)
    (s : ProductStore) (us : UserStore)
    (hid : validObjectId id = false) :
    getProduct id s = ⟨500, .msg "Failed to fetch product"⟩ ∧
    patchProduct id b s = (⟨400, .msg "Failed to update product"⟩, s) ∧
    purchase create id q s = ⟨⟨500, .msg "Failed to create payment intent"⟩, s, []⟩ ∧
    confirmPayment retrieve id paymentIntentId q s =
      ⟨⟨500, .err "Failed to confirm payment"⟩, s, 0⟩ ∧
    getUserById id us = .error "BSONError: invalid ObjectId" := by
  refine ⟨?_, ?_, ?_, ?_, ?_⟩ <;>
    simp [getProduct, patchProduct, purchase, confirmPayment, getUserById, hid]

/-- Fixture: a request body for the PATCH handler omitting price and
stock (they parse to NaN). -/
def wPatchBody : PatchBody := ⟨some "N2", some "D2", none, some "U2", none⟩

/-- Witness for the amended C9 at the malformed id "xyz". -/
theorem malformed_id_containment_witness :
    getProduct "xyz" [] = ⟨500, .msg "Failed to fetch product"⟩ ∧
    patchProduct "xyz" wPatchBody [] = (⟨400, .msg "Failed to update product"⟩, []) ∧
    purchase wCreate "xyz" (some 1) [] =
      ⟨⟨500, .msg "Failed to create payment intent"⟩, [], []⟩ ∧
    confirmPayment wRetrieve "xyz" "pi_1" (some 1) [] =
      ⟨⟨500, .err "Failed to confirm payment"⟩, [], 0⟩ ∧
    getUserById "xyz" [] = .error "BSONError: invalid ObjectId" :=
  malformed_id_containment wCreate wRetrieve "xyz" "pi_1" (some 1) wPatchBody [] []
    (by decide)

/-- Counterexample to C9 as stated: on GET /user/get/:id with a malformed
id the failure is not mapped to any HTTP response — the exception escapes
the handler, because that route has no try/catch. -/
theorem malformed_id_containment_counterexample :
    (getUserById "xyz" ([] : UserStore)).isOk = false := rfl

/-- C10 (amended): the PATCH update unconditionally writes the five fields
name, description, price, imageURL and stock from the request body — a
field omitted from the body overwrites the stored value with undefined
(NaN for the parsed price/stock) — so none of those five stored values
survives; fields outside the five, such as status, are preserved by the
`$set`; and a 200 response carries the object built from the request, not
the stored document. -/
theorem patch_overwrites_request_fields
    (id : String) (b : PatchBody) (s : ProductStore) (p : Product)
    (hid : validObjectId id = true)
    (hp : findProduct id s = some p) :
    ∃ p1, findProduct id (patchProduct id b s).2 = some p1 ∧
      p1.name = b.name ∧ p1.description = b.description ∧
      p1.price = jsParseFloat b.price ∧ p1.imageURL = b.imageURL ∧
      p1.stock = jsParseInt b.stock ∧ p1.status = p.status ∧
      ((patchProduct id b s).1.status = 200 →
        (patchProduct id b s).1 = ⟨200, .patchObj (buildPatchDoc b)⟩) := by
  have hred : patchProduct id b s =
      (if (updateOne s id (patchSet (buildPatchDoc b))).2 == 0 then
        (⟨404, .msg "Product not found"⟩, (updateOne s id (patchSet (buildPatchDoc b))).1)
      else (⟨200, .patchObj (buildPatchDoc b)⟩,
        (updateOne s id (patchSet (buildPatchDoc b))).1)) := by
    simp only [patchProduct, hid, if_true]
  rcases updateOne_of_found (patchSet (buildPatchDoc b)) hp with
    ⟨hfix, hupd⟩ | ⟨hne, h2, h1⟩
  · rw [hupd] at hred
    simp only [if_pos rfl] at hred
    rw [hred]
    refine ⟨p, hp, ?_, ?_, ?_, ?_, ?_, rfl, ?_⟩
    · have := congrArg Product.name hfix
      simpa only [patchSet, buildPatchDoc] using this.symm
    · have := congrArg Product.description hfix
      simpa only [patchSet, buildPatchDoc] using this.symm
    · have := congrArg Product.price hfix
      simpa only [patchSet, buildPatchDoc] using this.symm
    · have := congrArg Product.imageURL hfix
      simpa only [patchSet, buildPatchDoc] using this.symm
    · have := congrArg Product.stock hfix
      simpa only [patchSet, buildPatchDoc] using this.symm
    · intro h200
      simp at h200
  · rw [h2] at hred
    rw [if_neg (by simp)] at hred
    rw [hred]
    exact ⟨patchSet (buildPatchDoc b) p, h1, rfl, rfl, rfl, rfl, rfl, rfl, fun _ => rfl⟩

/-- Witness for the amended C10: the body omitting price and stock against
the store holding the fixture product. -/
theorem patch_overwrites_request_fields_witness :
    ∃ p1, findProduct wPid (patchProduct wPid wPatchBody wStoreFixed).2 = some p1 ∧
      p1.name = wPatchBody.name ∧ p1.description = wPatchBody.description ∧
      p1.price = jsParseFloat wPatchBody.price ∧ p1.imageURL = wPatchBody.imageURL ∧
      p1.stock = jsParseInt wPatchBody.stock ∧ p1.status = wProductFixed.status ∧
      ((patchProduct wPid wPatchBody wStoreFixed).1.status = 200 →
        (patchProduct wPid wPatchBody wStoreFixed).1 =
          ⟨200, .patchObj (buildPatchDoc wPatchBody)⟩) :=
  patch_overwrites_request_fields wPid wPatchBody wStoreFixed wProductFixed
    (by decide) rfl

/-- Counterexample to C10 as stated: the stored `status` field is a
product field outside the request, and the PATCH `$set` preserves it
verbatim — here "In Stock" survives the update untouched. -/
theorem patch_overwrites_request_fields_counterexample :
    (patchProduct wPid wPatchBody wStoreFixed).2 =
      [(wPid, ⟨some "N2", some "D2", none, some "U2", none, some "In Stock"⟩)] ∧
    wProductFixed.status = some "In Stock" := by decide
